import Mathlib

/-!
Shallow embedding of the file-type detection and validation logic of
`src/utils/fileValidator.ts` (class `FileValidator`).

Modelling conventions:
* JavaScript strings are modelled as `List Char` (Unicode scalar values).
  Every string reaching the scorers is produced by Node's UTF-8 decoding
  with U+FFFD replacement, which never yields lone surrogates, so scalar
  values are a faithful representation.
* File contents are byte lists (`List Nat`, each element < 256); the
  filesystem is a partial map from path strings to byte lists.
* JavaScript numbers are modelled as `Rat`.  Every numeric value reachable
  in this code is a sum drawn from {0, 0.3, 0.5, 0.7, 1} divided by small
  constants; consecutive reachable values differ by at least 1/30, which is
  far above double-precision rounding error, so exact rational arithmetic
  agrees with IEEE doubles on every comparison the code performs.
* Exceptions thrown by the host filesystem API are not modelled: the
  modelled filesystem is total (a file either exists with some content or
  does not exist), so the `catch` branches of `detectFileType` and
  `validateFile` are unreachable in the model.
-/

namespace FileValidator

/-- The set of characters removed by JavaScript `String.prototype.trim`:
tab, LF, VT, FF, CR, space, NBSP, Unicode space separators, line and
paragraph separators, and the BOM. -/
def jsIsSpace (c : Char) : Bool :=
  decide (c.toNat = 9 ∨ c.toNat = 10 ∨ c.toNat = 11 ∨ c.toNat = 12 ∨
    c.toNat = 13 ∨ c.toNat = 32 ∨ c.toNat = 160 ∨ c.toNat = 0x1680 ∨
    (0x2000 ≤ c.toNat ∧ c.toNat ≤ 0x200A) ∨ c.toNat = 0x2028 ∨
    c.toNat = 0x2029 ∨ c.toNat = 0x202F ∨ c.toNat = 0x205F ∨
    c.toNat = 0x3000 ∨ c.toNat = 0xFEFF)

/-- Remove trailing whitespace (the right half of JavaScript `trim`). -/
def trimRight (l : List Char) : List Char :=
  (l.reverse.dropWhile jsIsSpace).reverse

/-- JavaScript `String.prototype.trim`: strip whitespace from both ends. -/
def jsTrim (l : List Char) : List Char :=
  trimRight (l.dropWhile jsIsSpace)

/-- JavaScript `String.prototype.toLowerCase`, restricted to the ASCII
range (all characters this repository compares are ASCII). -/
def jsToLower (l : List Char) : List Char :=
  l.map Char.toLower

/-- `listStartsWith needle hay` is JavaScript `hay.startsWith(needle)`. -/
def listStartsWith : List Char → List Char → Bool
  | [], _ => true
  | _ :: _, [] => false
  | n :: ns, h :: hs => if n = h then listStartsWith ns hs else false

/-- `includesSub needle hay` is JavaScript `hay.includes(needle)`
(substring search). -/
def includesSub (needle : List Char) : List Char → Bool
  | [] => needle.isEmpty
  | h :: hs => listStartsWith needle (h :: hs) || includesSub needle hs

/-- JavaScript `String.prototype.split` with a single-character separator:
`"".split(sep) = [""]`, and a trailing separator yields a trailing empty
part. -/
def splitOnChar (sep : Char) : List Char → List (List Char)
  | [] => [[]]
  | c :: rest =>
    match splitOnChar sep rest with
    | [] => [[c]]
    | h :: t => if c = sep then [] :: h :: t else (c :: h) :: t

/-- UTF-8 encoding of one Unicode scalar value (what
`Buffer.from(s, 'utf8')` produces per character). -/
def utf8EncodeChar (c : Char) : List Nat :=
  let n := c.toNat
  if n ≤ 0x7F then [n]
  else if n ≤ 0x7FF then [0xC0 + n / 64, 0x80 + n % 64]
  else if n ≤ 0xFFFF then [0xE0 + n / 4096, 0x80 + (n / 64) % 64, 0x80 + n % 64]
  else [0xF0 + n / 262144, 0x80 + (n / 4096) % 64, 0x80 + (n / 64) % 64, 0x80 + n % 64]

/-- UTF-8 encoding of a string, modelling `Buffer.from(content, 'utf8')`. -/
def utf8Encode : List Char → List Nat
  | [] => []
  | c :: cs => utf8EncodeChar c ++ utf8Encode cs

/-- The U+FFFD replacement character. -/
def repl : Char := Char.ofNat 0xFFFD

/-- Is `b` a UTF-8 continuation byte? -/
def isCont (b : Nat) : Bool := decide (0x80 ≤ b ∧ b ≤ 0xBF)

/-- Lower bound for the first continuation byte after lead byte `b`
(WHATWG decoder: E0 requires A0.., F0 requires 90..). -/
def cont1Lo (b : Nat) : Nat :=
  if b = 0xE0 then 0xA0 else if b = 0xF0 then 0x90 else 0x80

/-- Upper bound for the first continuation byte after lead byte `b`
(WHATWG decoder: ED allows ..9F, F4 allows ..8F). -/
def cont1Hi (b : Nat) : Nat :=
  if b = 0xED then 0x9F else if b = 0xF4 then 0x8F else 0xBF

/-- One step of the WHATWG UTF-8 decoder (the algorithm used by Node for
`buffer.toString('utf8')`): decode the character starting at byte `b`,
returning the decoded character (U+FFFD for a maximal invalid subpart)
and how many further bytes of `rest` were consumed. -/
def utf8DecodeStep (b : Nat) (rest : List Nat) : Char × Nat :=
  if b ≤ 0x7F then (Char.ofNat b, 0)
  else if b ≤ 0xC1 then (repl, 0)
  else if b ≤ 0xDF then
    match rest with
    | c1 :: _ =>
      if isCont c1 then (Char.ofNat ((b - 0xC0) * 64 + (c1 - 0x80)), 1)
      else (repl, 0)
    | [] => (repl, 0)
  else if b ≤ 0xEF then
    match rest with
    | c1 :: c2 :: _ =>
      if decide (cont1Lo b ≤ c1 ∧ c1 ≤ cont1Hi b) then
        if isCont c2 then
          (Char.ofNat ((b - 0xE0) * 4096 + (c1 - 0x80) * 64 + (c2 - 0x80)), 2)
        else (repl, 1)
      else (repl, 0)
    | [c1] =>
      if decide (cont1Lo b ≤ c1 ∧ c1 ≤ cont1Hi b) then (repl, 1) else (repl, 0)
    | [] => (repl, 0)
  else if b ≤ 0xF4 then
    match rest with
    | c1 :: c2 :: c3 :: _ =>
      if decide (cont1Lo b ≤ c1 ∧ c1 ≤ cont1Hi b) then
        if isCont c2 then
          if isCont c3 then
            (Char.ofNat ((b - 0xF0) * 262144 + (c1 - 0x80) * 4096 +
              (c2 - 0x80) * 64 + (c3 - 0x80)), 3)
          else (repl, 2)
        else (repl, 1)
      else (repl, 0)
    | [c1, c2] =>
      if decide (cont1Lo b ≤ c1 ∧ c1 ≤ cont1Hi b) then
        if isCont c2 then (repl, 2) else (repl, 1)
      else (repl, 0)
    | [c1] =>
      if decide (cont1Lo b ≤ c1 ∧ c1 ≤ cont1Hi b) then (repl, 1) else (repl, 0)
    | [] => (repl, 0)
  else (repl, 0)

/-- Fuel-indexed driver for the UTF-8 decoder.  Each step consumes at
least one byte, so fuel equal to the byte count never runs out. -/
def utf8DecodeAux : Nat → List Nat → List Char
  | 0, _ => []
  | _, [] => []
  | fuel + 1, b :: rest =>
    let s := utf8DecodeStep b rest
    s.1 :: utf8DecodeAux fuel (rest.drop s.2)

/-- `buffer.toString('utf8')`: WHATWG UTF-8 decoding with U+FFFD
replacement of invalid subparts. -/
def utf8Decode (l : List Nat) : List Char :=
  utf8DecodeAux l.length l

/-- Fuel-indexed count of the matches of the regex `<[^>]+>` under a
global left-to-right scan (`content.match(/<[^>]+>/g)`): at a `<`, the
greedy `[^>]+` can only succeed on the maximal run of non-`>` characters,
which must be non-empty and followed by `>`; on a match the scan resumes
after the match, on a failure at the next position.  Each step consumes
at least one character, so fuel equal to the length never runs out. -/
def countOpenTagsAux : Nat → List Char → Nat
  | 0, _ => 0
  | _, [] => 0
  | fuel + 1, c :: rest =>
    if c = '<' then
      let inner := rest.takeWhile (fun x => !(x = '>' : Bool))
      if 0 < inner.length ∧ inner.length < rest.length then
        1 + countOpenTagsAux fuel (rest.drop (inner.length + 1))
      else countOpenTagsAux fuel rest
    else countOpenTagsAux fuel rest

/-- Number of matches of `/<[^>]+>/g` in the text. -/
def countOpenTags (l : List Char) : Nat :=
  countOpenTagsAux l.length l

/-- Fuel-indexed count of the matches of `/<\/[^>]+>/g`, with the same
scanning discipline as `countOpenTagsAux`. -/
def countClosingTagsAux : Nat → List Char → Nat
  | 0, _ => 0
  | _, [] => 0
  | fuel + 1, c :: rest =>
    if c = '<' then
      match rest with
      | '/' :: rest2 =>
        let inner := rest2.takeWhile (fun x => !(x = '>' : Bool))
        if 0 < inner.length ∧ inner.length < rest2.length then
          1 + countClosingTagsAux fuel (rest2.drop (inner.length + 1))
        else countClosingTagsAux fuel rest
      | _ => countClosingTagsAux fuel rest
    else countClosingTagsAux fuel rest

/-- Number of matches of the closing-tag regex `/<\/[^>]+>/g`. -/
def countClosingTags (l : List Char) : Nat :=
  countClosingTagsAux l.length l

/-- Node `path.basename`: strip trailing slashes, then take the part
after the last remaining slash. -/
def basename (p : List Char) : List Char :=
  ((p.reverse.dropWhile (fun c => c = '/')).takeWhile (fun c => !(c = '/' : Bool))).reverse

/-- Index of the last `.` in a name, if any. -/
def lastDotIdx (b : List Char) : Option Nat :=
  match b.reverse.findIdx? (fun ch => ch = '.') with
  | none => none
  | some j => some (b.length - 1 - j)

/-- Node `path.extname`: the suffix of the basename from its last dot,
empty when there is no dot, when the only dot is the leading character of
the basename (dotfiles), or when the basename is exactly `..`. -/
def extname (p : List Char) : List Char :=
  let b := basename p
  match lastDotIdx b with
  | none => []
  | some k =>
    if k = 0 then []
    else if b = ['.', '.'] then []
    else b.drop k

/-- The `FileType` enum of `fileValidator.ts`. -/
inductive FileType
  | CSV
  | EXCEL
  | XML
deriving DecidableEq, Repr

/-- The `toUpperCase()` of the enum's string value: used in the specific
detection reasons. -/
def FileType.upperName : FileType → List Char
  | FileType.CSV => ("CSV").data
  | FileType.EXCEL => ("EXCEL").data
  | FileType.XML => ("XML").data

/-- The per-branch generic reason pushed first by `detectFileType`. -/
def FileType.indicatorsMsg : FileType → List Char
  | FileType.CSV => ("CSV indicators found").data
  | FileType.EXCEL => ("Excel indicators found").data
  | FileType.XML => ("XML indicators found").data

/-- One `{ csv, excel, xml }` score record produced by a scorer. -/
structure ScoreTriple where
  csv : Rat
  excel : Rat
  xml : Rat
deriving DecidableEq, Repr

/-- Indexing a score record by a file type
(`extensionScore[result.detectedType]`). -/
def ScoreTriple.get (s : ScoreTriple) : FileType → Rat
  | FileType.CSV => s.csv
  | FileType.EXCEL => s.excel
  | FileType.XML => s.xml

/-- The `FileTypeDetectionResult` interface. -/
structure FileTypeDetectionResult where
  detectedType : Option FileType
  confidence : Rat
  reasons : List (List Char)
deriving DecidableEq, Repr

/-- The `fileInfo` record of a `FileValidationResult`.  The optional
`mimeType` field is omitted: it is declared in the interface but never
assigned anywhere in the source. -/
structure FileInfo where
  path : List Char
  size : Nat
  extension : List Char
deriving DecidableEq, Repr

/-- The `FileValidationResult` interface. -/
structure FileValidationResult where
  isValid : Bool
  fileType : Option FileType
  errors : List (List Char)
  warnings : List (List Char)
  fileInfo : FileInfo
deriving DecidableEq, Repr

/-- `CSV_EXTENSIONS`. -/
def CSV_EXTENSIONS : List (List Char) :=
  [(".csv").data, (".tsv").data, (".txt").data]

/-- `EXCEL_EXTENSIONS`. -/
def EXCEL_EXTENSIONS : List (List Char) :=
  [(".xlsx").data, (".xls").data, (".xlsm").data, (".xlsb").data]

/-- `XML_EXTENSIONS`. -/
def XML_EXTENSIONS : List (List Char) :=
  [(".xml").data, (".xsd").data, (".xsl").data, (".xslt").data,
   (".rss").data, (".atom").data, (".svg").data]

/-- `CSV_SEPARATORS`: comma, semicolon, tab, pipe. -/
def CSV_SEPARATORS : List Char := [',', ';', '\t', '|']

/-- Rational addition.  `Rat.add` is `@[irreducible]` in this toolchain,
which blocks kernel evaluation of concrete score computations, so the
model uses this definitionally transparent equivalent; `ratAdd_eq_add`
below proves it equal to `+`. -/
def ratAdd (a b : Rat) : Rat :=
  mkRat (a.num * b.den + b.num * a.den) (a.den * b.den)

/-- Rational multiplication, kernel-reducible; `ratMul_eq_mul` below
proves it equal to `*`. -/
def ratMul (a b : Rat) : Rat :=
  mkRat (a.num * b.num) (a.den * b.den)

/-- Rational division, kernel-reducible; `ratDiv_eq_div` below proves it
equal to `/`. -/
def ratDiv (a b : Rat) : Rat :=
  Rat.divInt (a.num * b.den) (a.den * b.num)

/-- JavaScript `Math.min` on two numbers. -/
def jsMin (a b : Rat) : Rat := if a ≤ b then a else b

/-- JavaScript `Math.max` on two numbers; `Math.max(a, b, c)` is modelled
as `jsMax a (jsMax b c)`. -/
def jsMax (a b : Rat) : Rat := if a ≤ b then b else a

/-- `FileValidator.scoreByExtension`. -/
def scoreByExtension (extension : List Char) : ScoreTriple :=
  if CSV_EXTENSIONS.contains extension then { csv := 1, excel := 0, xml := 0 }
  else if EXCEL_EXTENSIONS.contains extension then { csv := 0, excel := 1, xml := 0 }
  else if XML_EXTENSIONS.contains extension then { csv := 0, excel := 0, xml := 1 }
  else { csv := 0, excel := 0, xml := 0 }

/-- `FileValidator.scoreByFilename`: keyword substring matching on the
lower-cased basename, 0.3 points per type, each type checked
independently. -/
def scoreByFilename (filename : List Char) : ScoreTriple :=
  { csv :=
      if includesSub (("csv").data) filename || includesSub (("data").data) filename ||
          includesSub (("export").data) filename then mkRat 3 10 else 0,
    excel :=
      if includesSub (("xlsx").data) filename || includesSub (("xls").data) filename ||
          includesSub (("spreadsheet").data) filename || includesSub (("workbook").data) filename
        then mkRat 3 10 else 0,
    xml :=
      if includesSub (("xml").data) filename || includesSub (("config").data) filename ||
          includesSub (("feed").data) filename || includesSub (("rss").data) filename
        then mkRat 3 10 else 0 }

/-- The XML block of `scoreByContent` (lines 200-212): if the trimmed
content starts with `<?xml` or `<`, score 1 when both the tag regex and
the closing-tag regex match somewhere in the (untrimmed) content, 0.7
when only the tag regex matches, else 0. -/
def xmlContentScore (content : List Char) : Rat :=
  let trimmedContent := jsTrim content
  if listStartsWith (("<?xml").data) trimmedContent ∨
      listStartsWith (("<").data) trimmedContent then
    let xmlTagCount := countOpenTags content
    let xmlClosingTagCount := countClosingTags content
    if 0 < xmlTagCount ∧ 0 < xmlClosingTagCount then 1
    else if 0 < xmlTagCount then mkRat 7 10
    else 0
  else 0

/-- The Excel block of `scoreByContent` (lines 214-225): re-encode the
decoded sample with `Buffer.from(content, 'utf8')` and test the first
bytes against the ZIP (`50 4B`) and OLE (`D0 CF 11 E0`) magic numbers,
provided at least 8 bytes are present. -/
def excelContentScore (content : List Char) : Rat :=
  let bytes := utf8Encode content
  if 8 ≤ bytes.length then
    if bytes.getD 0 0 = 0x50 ∧ bytes.getD 1 0 = 0x4B then 1
    else if bytes.getD 0 0 = 0xD0 ∧ bytes.getD 1 0 = 0xCF ∧
        bytes.getD 2 0 = 0x11 ∧ bytes.getD 3 0 = 0xE0 then 1
    else 0
  else 0

/-- Does the line contain one of the CSV separators
(the inner `for sep of CSV_SEPARATORS` loop)? -/
def csvLineHasSeparator (line : List Char) : Bool :=
  line.any (fun ch => CSV_SEPARATORS.contains ch)

/-- Does the line count as a CSV indicator: non-blank after trimming and
containing a separator? -/
def csvLineCounts (line : List Char) : Bool :=
  !(jsTrim line).isEmpty && csvLineHasSeparator line

/-- The CSV block of `scoreByContent` (lines 227-251): runs only when the
XML score and the Excel score are both zero; takes the first 10 lines of
the sample (`split('\n').slice(0, 10)`, blank lines included), counts the
lines that are non-blank and contain a separator, and compares that count
against half of the number of taken lines. -/
def csvContentScore (content : List Char) (xmlScore excelScore : Rat) : Rat :=
  if xmlScore = 0 ∧ excelScore = 0 then
    let lines := (splitOnChar '\n' content).take 10
    let csvIndicators := (lines.filter csvLineCounts).length
    if ratMul (lines.length : Rat) (mkRat 1 2) ≤ (csvIndicators : Rat) then 1
    else if 0 < csvIndicators then mkRat 1 2
    else 0
  else 0

/-- `FileValidator.scoreByContent`: empty sample scores all zero;
otherwise the XML, Excel and CSV blocks fill in the triple, the CSV one
gated on the other two being zero. -/
def scoreByContent (content : List Char) : ScoreTriple :=
  if content.length = 0 then { csv := 0, excel := 0, xml := 0 }
  else
    let xml := xmlContentScore content
    let excel := excelContentScore content
    { csv := csvContentScore content xml excel, excel := excel, xml := xml }

/-- `'File extension matches <TYPE>'`. -/
def extMatchMsg (t : FileType) : List Char :=
  ("File extension matches ").data ++ t.upperName

/-- `'File content matches <TYPE> format'`. -/
def contentMatchMsg (t : FileType) : List Char :=
  ("File content matches ").data ++ t.upperName ++ (" format").data

/-- `'Filename suggests <TYPE> format'`. -/
def filenameMsg (t : FileType) : List Char :=
  ("Filename suggests ").data ++ t.upperName ++ (" format").data

/-- Lines 138-170 of `detectFileType`: sum the three score triples
componentwise, take the maximum, and when it is positive pick the winner
by testing CSV, then Excel, then XML for equality with the maximum; the
confidence is the winner's own score divided by 3 and capped at 1, and
the reasons are the winner's generic message followed by one per scorer
that contributed to the winner. -/
def combineDetection (extensionScore contentScore filenameScore : ScoreTriple) :
    FileTypeDetectionResult :=
  let csvScore := ratAdd (ratAdd extensionScore.csv contentScore.csv) filenameScore.csv
  let excelScore := ratAdd (ratAdd extensionScore.excel contentScore.excel) filenameScore.excel
  let xmlScore := ratAdd (ratAdd extensionScore.xml contentScore.xml) filenameScore.xml
  let maxScore := jsMax csvScore (jsMax excelScore xmlScore)
  if 0 < maxScore then
    let dt :=
      if csvScore = maxScore then FileType.CSV
      else if excelScore = maxScore then FileType.EXCEL
      else FileType.XML
    let winScore :=
      if csvScore = maxScore then csvScore
      else if excelScore = maxScore then excelScore
      else xmlScore
    { detectedType := some dt,
      confidence := jsMin (ratDiv winScore 3) 1,
      reasons :=
        [dt.indicatorsMsg]
          ++ (if 0 < extensionScore.get dt then [extMatchMsg dt] else [])
          ++ (if 0 < contentScore.get dt then [contentMatchMsg dt] else [])
          ++ (if 0 < filenameScore.get dt then [filenameMsg dt] else []) }
  else { detectedType := none, confidence := 0, reasons := [] }

/-- The filesystem: a path either resolves to a file's byte content or
does not exist.  Read errors on an existing file (the inner `catch` of
the content sampler) are not modelled. -/
def FileSys : Type := List Char → Option (List Nat)

/-- `path.extname(filePath).toLowerCase()`. -/
def extensionOf (p : List Char) : List Char :=
  jsToLower (extname p)

/-- `path.basename(filePath).toLowerCase()`. -/
def fileNameOf (p : List Char) : List Char :=
  jsToLower (basename p)

/-- Lines 112-131 of `detectFileType` (the Content Sampler): when the
file exists, read the first `min(8192, fileSize)` bytes and decode them
as UTF-8; when it does not exist, leave the sample empty. -/
def contentSampleOf (fsys : FileSys) (filePath : List Char) : List Char :=
  match fsys filePath with
  | none => []
  | some bytes => utf8Decode (bytes.take 8192)

/-- `FileValidator.detectFileType`. -/
def detectFileType (fsys : FileSys) (filePath : List Char) : FileTypeDetectionResult :=
  combineDetection (scoreByExtension (extensionOf filePath))
    (scoreByContent (contentSampleOf fsys filePath))
    (scoreByFilename (fileNameOf filePath))

/-- Round a nonnegative rational half up to the nearest integer
(kernel-reducible floor of `q + 1/2`). -/
def jsRound (q : Rat) : Int :=
  (2 * q.num + (q.den : Int)).fdiv (2 * (q.den : Int))

/-- `Number.prototype.toFixed(1)` for the nonnegative rationals that occur
as `confidence * 100`: round to one decimal digit and print. -/
def toFixed1 (q : Rat) : List Char :=
  let n := (jsRound (ratMul q 10)).toNat
  Nat.toDigits 10 (n / 10) ++ ('.' :: Nat.toDigits 10 (n % 10))

/-- The first low-confidence warning of `validateFile`. -/
def lowConfidenceWarning (confidence : Rat) : List Char :=
  ("File type detection confidence is low (").data ++ toFixed1 (ratMul confidence 100) ++ ("%)").data

/-- The second low-confidence warning: `'Detection reasons: '` followed by
`reasons.join(', ')`. -/
def reasonsWarning (reasons : List (List Char)) : List Char :=
  ("Detection reasons: ").data ++ List.intercalate ((", ").data) reasons

/-- `FileValidator.validateFile`. -/
def validateFile (fsys : FileSys) (filePath : List Char) : FileValidationResult :=
  match fsys filePath with
  | none =>
    { isValid := false, fileType := none,
      errors := [("File not found: ").data ++ filePath],
      warnings := [],
      fileInfo := { path := filePath, size := 0, extension := [] } }
  | some bytes =>
    let extension := extensionOf filePath
    let size := bytes.length
    if size = 0 then
      { isValid := false, fileType := none,
        errors := [("File is empty").data],
        warnings := [],
        fileInfo := { path := filePath, size := size, extension := extension } }
    else
      let detection := detectFileType fsys filePath
      { isValid := detection.detectedType.isSome,
        fileType := detection.detectedType,
        errors :=
          if detection.detectedType = none then
            [("Unable to determine file type. Supported types: CSV, Excel (.xlsx, .xls), XML").data]
          else [],
        warnings :=
          (if detection.confidence < mkRat 7 10 then
            [lowConfidenceWarning detection.confidence, reasonsWarning detection.reasons]
          else [])
            ++ (if 100 * 1024 * 1024 < size then
              [("File is very large (>100MB), processing might be slow").data]
            else []),
        fileInfo := { path := filePath, size := size, extension := extension } }

/-- Path of the concrete scenario-A file. -/
def reportPath : List Char := ("report.csv").data

/-- ASCII byte content of the scenario-A file
`name,age\nJohn,30\nJane,25`. -/
def reportBytes : List Nat :=
  (("name,age\nJohn,30\nJane,25").data).map Char.toNat

/-- A one-file filesystem holding the scenario-A file. -/
def fsReport : FileSys :=
  fun q => if q = reportPath then some reportBytes else none

/-- A filesystem with no files at all. -/
def fsNone : FileSys := fun _ => none

/-- A one-file filesystem holding an XML file, used to check that two
filesystems that agree on a path give the same detection there. -/
def fsOther : FileSys :=
  fun q => if q = ("other.xml").data then some [60] else none

/-- A one-file filesystem holding a zero-byte `empty.csv`. -/
def fsEmpty : FileSys :=
  fun q => if q = ("empty.csv").data then some [] else none

/-- An 8-byte file that is exactly the OLE compound-file magic number of
a legacy `.xls` workbook. -/
def oleSample : List Nat := [0xD0, 0xCF, 0x11, 0xE0, 0xA1, 0xB1, 0x1A, 0xE1]

/-- An 8-byte file beginning with the ZIP local-file magic of an `.xlsx`
container. -/
def zipSample : List Nat := [0x50, 0x4B, 0x03, 0x04, 0x00, 0x00, 0x00, 0x00]

/-- Content whose only non-blank line has a separator, but which is
followed by three blank lines. -/
def blankHeavyContent : List Char := ("a,b\n\n\n").data

/-! ## Bridge lemmas: the kernel-reducible arithmetic wrappers agree with
the standard rational operations. -/

theorem ratAdd_eq_add (a b : Rat) : ratAdd a b = a + b :=
  (Rat.add_def' a b).symm

theorem ratMul_eq_mul (a b : Rat) : ratMul a b = a * b := by
  rw [Rat.mul_def, Rat.normalize_eq_mkRat]
  rfl

theorem ratDiv_eq_div (a b : Rat) : ratDiv a b = a / b := by
  rcases eq_or_ne b 0 with rfl | hb
  · simp [ratDiv]
  · have hbn : ((b.num : Rat)) ≠ 0 := Int.cast_ne_zero.mpr (Rat.num_ne_zero.mpr hb)
    have had : ((a.den : Rat)) ≠ 0 := Nat.cast_ne_zero.mpr a.den_nz
    have hbd : ((b.den : Rat)) ≠ 0 := Nat.cast_ne_zero.mpr b.den_nz
    rw [ratDiv, Rat.divInt_eq_div]
    push_cast
    conv_rhs => rw [← Rat.num_div_den a, ← Rat.num_div_den b]
    field_simp

theorem jsMin_eq_min (a b : Rat) : jsMin a b = min a b :=
  (min_def a b).symm

theorem jsMax_eq_max (a b : Rat) : jsMax a b = max a b :=
  (max_def a b).symm

theorem jsMax_choice (a b : Rat) : jsMax a b = a ∨ jsMax a b = b := by
  unfold jsMax
  split
  · exact Or.inr rfl
  · exact Or.inl rfl

/-- When neither the CSV sum nor the Excel sum equals the three-way
maximum, the XML sum does. -/
theorem jsMax_eq_third (cs es xs : Rat) (h1 : ¬cs = jsMax cs (jsMax es xs))
    (h2 : ¬es = jsMax cs (jsMax es xs)) : xs = jsMax cs (jsMax es xs) := by
  rcases jsMax_choice cs (jsMax es xs) with h | h
  · exact absurd h.symm h1
  · rcases jsMax_choice es xs with h3 | h3
    · exact absurd (h.trans h3).symm h2
    · exact (h.trans h3).symm

/-! ## Structure lemmas about the detector. -/

theorem detectFileType_def (fsys : FileSys) (p : List Char) :
    detectFileType fsys p =
      combineDetection (scoreByExtension (extensionOf p))
        (scoreByContent (contentSampleOf fsys p))
        (scoreByFilename (fileNameOf p)) := rfl

theorem combineDetection_pos (e c f : ScoreTriple)
    (hpos : 0 < jsMax (ratAdd (ratAdd e.csv c.csv) f.csv)
      (jsMax (ratAdd (ratAdd e.excel c.excel) f.excel)
        (ratAdd (ratAdd e.xml c.xml) f.xml))) :
    (combineDetection e c f).detectedType =
        some (if ratAdd (ratAdd e.csv c.csv) f.csv =
              jsMax (ratAdd (ratAdd e.csv c.csv) f.csv)
                (jsMax (ratAdd (ratAdd e.excel c.excel) f.excel)
                  (ratAdd (ratAdd e.xml c.xml) f.xml)) then FileType.CSV
          else if ratAdd (ratAdd e.excel c.excel) f.excel =
              jsMax (ratAdd (ratAdd e.csv c.csv) f.csv)
                (jsMax (ratAdd (ratAdd e.excel c.excel) f.excel)
                  (ratAdd (ratAdd e.xml c.xml) f.xml)) then FileType.EXCEL
          else FileType.XML) ∧
      (combineDetection e c f).confidence =
        jsMin (ratDiv (jsMax (ratAdd (ratAdd e.csv c.csv) f.csv)
          (jsMax (ratAdd (ratAdd e.excel c.excel) f.excel)
            (ratAdd (ratAdd e.xml c.xml) f.xml))) 3) 1 := by
  simp only [combineDetection]
  rw [if_pos hpos]
  refine ⟨rfl, ?_⟩
  dsimp only
  split_ifs with h1 h2
  · rw [← h1]
  · rw [← h2]
  · rw [← jsMax_eq_third _ _ _ h1 h2]

theorem combineDetection_neg (e c f : ScoreTriple)
    (hneg : ¬0 < jsMax (ratAdd (ratAdd e.csv c.csv) f.csv)
      (jsMax (ratAdd (ratAdd e.excel c.excel) f.excel)
        (ratAdd (ratAdd e.xml c.xml) f.xml))) :
    combineDetection e c f =
      { detectedType := none, confidence := 0, reasons := [] } := by
  simp only [combineDetection]
  rw [if_neg hneg]

/-! ## Claim theorems. -/

/-- C1: for every input file whose combined score triple (extension +
content + filename, summed componentwise) has a positive maximum,
`detectFileType` picks the winner by testing CSV first, then EXCEL, then
XML for equality with the maximum — so CSV beats EXCEL and XML on ties
and EXCEL beats XML — and sets `confidence = min(maxScore / 3, 1)`. -/
theorem C1_tie_break_and_confidence (fsys : FileSys) (p : List Char)
    (cs es xs m : Rat)
    (hcs : cs = ratAdd (ratAdd (scoreByExtension (extensionOf p)).csv
      (scoreByContent (contentSampleOf fsys p)).csv) (scoreByFilename (fileNameOf p)).csv)
    (hes : es = ratAdd (ratAdd (scoreByExtension (extensionOf p)).excel
      (scoreByContent (contentSampleOf fsys p)).excel) (scoreByFilename (fileNameOf p)).excel)
    (hxs : xs = ratAdd (ratAdd (scoreByExtension (extensionOf p)).xml
      (scoreByContent (contentSampleOf fsys p)).xml) (scoreByFilename (fileNameOf p)).xml)
    (hm : m = jsMax cs (jsMax es xs)) (hpos : 0 < m) :
    (detectFileType fsys p).detectedType =
        some (if cs = m then FileType.CSV
          else if es = m then FileType.EXCEL
          else FileType.XML) ∧
      (detectFileType fsys p).confidence = jsMin (ratDiv m 3) 1 := by
  subst hcs hes hxs hm
  rw [detectFileType_def]
  exact combineDetection_pos _ _ _ hpos

/-- Witness for C1 at the path `a.csv` on an empty filesystem: the
combined CSV score is 1 (extension) + 0 (content) + 0.3 (the basename
contains the keyword `csv`) = 1.3, the maximum is positive, and the
detector picks CSV with confidence `min(1.3 / 3, 1)`. -/
theorem C1_tie_break_and_confidence_witness :
    (mkRat 13 10 : Rat) = ratAdd (ratAdd (scoreByExtension (extensionOf (("a.csv").data))).csv
        (scoreByContent (contentSampleOf fsNone (("a.csv").data))).csv)
        (scoreByFilename (fileNameOf (("a.csv").data))).csv ∧
      (0 : Rat) = ratAdd (ratAdd (scoreByExtension (extensionOf (("a.csv").data))).excel
        (scoreByContent (contentSampleOf fsNone (("a.csv").data))).excel)
        (scoreByFilename (fileNameOf (("a.csv").data))).excel ∧
      (0 : Rat) = ratAdd (ratAdd (scoreByExtension (extensionOf (("a.csv").data))).xml
        (scoreByContent (contentSampleOf fsNone (("a.csv").data))).xml)
        (scoreByFilename (fileNameOf (("a.csv").data))).xml ∧
      (mkRat 13 10 : Rat) = jsMax (mkRat 13 10) (jsMax 0 0) ∧
      (0 : Rat) < mkRat 13 10 ∧
      ((detectFileType fsNone (("a.csv").data)).detectedType =
          some (if (mkRat 13 10 : Rat) = mkRat 13 10 then FileType.CSV
            else if (0 : Rat) = mkRat 13 10 then FileType.EXCEL
            else FileType.XML) ∧
        (detectFileType fsNone (("a.csv").data)).confidence = jsMin (ratDiv (mkRat 13 10) 3) 1) :=
  ⟨by decide, by decide, by decide, by decide, by decide,
    C1_tie_break_and_confidence fsNone (("a.csv").data) (mkRat 13 10) 0 0 (mkRat 13 10)
      (by decide) (by decide) (by decide) (by decide) (by decide)⟩

/-- C8: `detectFileType` returns no detected type exactly when it returns
confidence 0 — a detected type always comes with strictly positive
confidence, and zero confidence only occurs with no detected type. -/
theorem C8_none_iff_zero_confidence (fsys : FileSys) (p : List Char) :
    (detectFileType fsys p).detectedType = none ↔
      (detectFileType fsys p).confidence = 0 := by
  by_cases h1 : 0 < jsMax
    (ratAdd (ratAdd (scoreByExtension (extensionOf p)).csv
      (scoreByContent (contentSampleOf fsys p)).csv) (scoreByFilename (fileNameOf p)).csv)
    (jsMax (ratAdd (ratAdd (scoreByExtension (extensionOf p)).excel
        (scoreByContent (contentSampleOf fsys p)).excel) (scoreByFilename (fileNameOf p)).excel)
      (ratAdd (ratAdd (scoreByExtension (extensionOf p)).xml
        (scoreByContent (contentSampleOf fsys p)).xml) (scoreByFilename (fileNameOf p)).xml))
  · obtain ⟨hdt, hconf⟩ := combineDetection_pos _ _ _ h1
    rw [detectFileType_def]
    rw [hdt, hconf]
    have hdiv : 0 < ratDiv (jsMax
        (ratAdd (ratAdd (scoreByExtension (extensionOf p)).csv
          (scoreByContent (contentSampleOf fsys p)).csv) (scoreByFilename (fileNameOf p)).csv)
        (jsMax (ratAdd (ratAdd (scoreByExtension (extensionOf p)).excel
            (scoreByContent (contentSampleOf fsys p)).excel) (scoreByFilename (fileNameOf p)).excel)
          (ratAdd (ratAdd (scoreByExtension (extensionOf p)).xml
            (scoreByContent (contentSampleOf fsys p)).xml)
            (scoreByFilename (fileNameOf p)).xml))) 3 := by
      rw [ratDiv_eq_div]
      exact div_pos h1 (by norm_num)
    have hmin : 0 < jsMin (ratDiv (jsMax
        (ratAdd (ratAdd (scoreByExtension (extensionOf p)).csv
          (scoreByContent (contentSampleOf fsys p)).csv) (scoreByFilename (fileNameOf p)).csv)
        (jsMax (ratAdd (ratAdd (scoreByExtension (extensionOf p)).excel
            (scoreByContent (contentSampleOf fsys p)).excel) (scoreByFilename (fileNameOf p)).excel)
          (ratAdd (ratAdd (scoreByExtension (extensionOf p)).xml
            (scoreByContent (contentSampleOf fsys p)).xml)
            (scoreByFilename (fileNameOf p)).xml))) 3) 1 := by
      unfold jsMin
      split
      · exact hdiv
      · norm_num
    constructor
    · intro h
      cases h
    · intro h
      exact absurd (h ▸ hmin) (lt_irrefl 0)
  · rw [detectFileType_def, combineDetection_neg _ _ _ h1]
    constructor
    · intro
      rfl
    · intro
      rfl

/-- C7: the detection result is a function of the path string and of that
path's content alone — two filesystems that assign the same content (or
absence) to a path produce identical `FileTypeDetectionResult`s there, so
repeating `detectFileType` on an unchanged file reproduces the same type,
confidence and reason list; the embedding itself is a pure function, so
no state is carried between calls. -/
theorem C7_deterministic (fs1 fs2 : FileSys) (p : List Char)
    (h : fs1 p = fs2 p) :
    detectFileType fs1 p = detectFileType fs2 p := by
  simp only [detectFileType, contentSampleOf, h]

/-- Witness for C7: an empty filesystem and a one-file filesystem agree
at `report.csv`, so detection there agrees. -/
theorem C7_deterministic_witness :
    fsNone reportPath = fsOther reportPath ∧
      detectFileType fsNone reportPath = detectFileType fsOther reportPath :=
  ⟨by decide, C7_deterministic fsNone fsOther reportPath (by decide)⟩

/-- An element of `if cond then [x] else []` equals `x`. -/
theorem mem_ite_singleton {q : Prop} [Decidable q] {r x : List Char}
    (h : r ∈ (if q then [x] else [])) : r = x := by
  split at h
  · simpa using h
  · simp at h

/-- Every reason string produced by the score-combining step is one of
the four fixed messages for some file type. -/
theorem combineDetection_reasons_cases (e c f : ScoreTriple) (r : List Char)
    (hr : r ∈ (combineDetection e c f).reasons) :
    ∃ dt : FileType, r = dt.indicatorsMsg ∨ r = extMatchMsg dt ∨
      r = contentMatchMsg dt ∨ r = filenameMsg dt := by
  simp only [combineDetection] at hr
  by_cases h1 : 0 < jsMax (ratAdd (ratAdd e.csv c.csv) f.csv)
      (jsMax (ratAdd (ratAdd e.excel c.excel) f.excel)
        (ratAdd (ratAdd e.xml c.xml) f.xml))
  · rw [if_pos h1] at hr
    dsimp only at hr
    simp only [List.mem_append, List.mem_singleton] at hr
    rcases hr with ((h | h) | h) | h
    · exact ⟨_, Or.inl h⟩
    · exact ⟨_, Or.inr (Or.inl (mem_ite_singleton h))⟩
    · exact ⟨_, Or.inr (Or.inr (Or.inl (mem_ite_singleton h)))⟩
    · exact ⟨_, Or.inr (Or.inr (Or.inr (mem_ite_singleton h)))⟩
  · rw [if_neg h1] at hr
    simp at hr

/-- C10: for a path that does not exist, `detectFileType` proceeds with
an empty content sample — the content scorer contributes an all-zero
triple, so the result is exactly what extension and filename scoring
alone produce — and no content-analysis-failure reason is recorded (the
code skips reading entirely when the existence check fails). -/
theorem C10_missing_file (fsys : FileSys) (p : List Char)
    (h : fsys p = none) :
    detectFileType fsys p =
        combineDetection (scoreByExtension (extensionOf p))
          { csv := 0, excel := 0, xml := 0 }
          (scoreByFilename (fileNameOf p)) ∧
      ∀ r ∈ (detectFileType fsys p).reasons,
        listStartsWith (("Content analysis failed").data) r = false := by
  have hs : contentSampleOf fsys p = [] := by
    simp [contentSampleOf, h]
  have hz : scoreByContent ([] : List Char) =
      { csv := 0, excel := 0, xml := 0 } := rfl
  constructor
  · rw [detectFileType_def, hs, hz]
  · intro r hr
    rw [detectFileType_def] at hr
    obtain ⟨dt, hcase⟩ := combineDetection_reasons_cases _ _ _ r hr
    cases dt <;> rcases hcase with hc | hc | hc | hc <;> subst hc <;> decide

/-- Witness for C10 at `report.csv` on the empty filesystem. -/
theorem C10_missing_file_witness :
    fsNone reportPath = none ∧
      (detectFileType fsNone reportPath =
          combineDetection (scoreByExtension (extensionOf reportPath))
            { csv := 0, excel := 0, xml := 0 }
            (scoreByFilename (fileNameOf reportPath)) ∧
        ∀ r ∈ (detectFileType fsNone reportPath).reasons,
          listStartsWith (("Content analysis failed").data) r = false) :=
  ⟨rfl, C10_missing_file fsNone reportPath rfl⟩

/-- C5: for every existing, non-empty file, `validateFile` never reports
`isValid = true` together with a non-empty error list. -/
theorem C5_valid_implies_no_errors (fsys : FileSys) (p : List Char)
    (bytes : List Nat) (hex : fsys p = some bytes) (hne : bytes ≠ []) :
    ¬((validateFile fsys p).isValid = true ∧
      (validateFile fsys p).errors ≠ []) := by
  have hlen : ¬(bytes.length = 0) := by
    simpa using hne
  rintro ⟨hv, herr⟩
  simp only [validateFile, hex] at hv herr
  rw [if_neg hlen] at hv herr
  cases hdt : (detectFileType fsys p).detectedType with
  | none =>
    rw [hdt] at hv
    simp at hv
  | some t =>
    rw [hdt] at herr
    simp at herr

/-- Witness for C5 at the scenario-A file. -/
theorem C5_valid_implies_no_errors_witness :
    fsReport reportPath = some reportBytes ∧ reportBytes ≠ [] ∧
      ¬((validateFile fsReport reportPath).isValid = true ∧
        (validateFile fsReport reportPath).errors ≠ []) :=
  ⟨rfl, by decide,
    C5_valid_implies_no_errors fsReport reportPath reportBytes rfl (by decide)⟩

/-- C6: for every existing zero-byte file, `validateFile` short-circuits
at the emptiness check: it returns `isValid = false` with errors exactly
`["File is empty"]`, no file type, no warnings, and nothing derived from
type detection (which is never reached). -/
theorem C6_empty_file (fsys : FileSys) (p : List Char)
    (hex : fsys p = some []) :
    validateFile fsys p =
      { isValid := false, fileType := none,
        errors := [("File is empty").data],
        warnings := [],
        fileInfo := { path := p, size := 0, extension := extensionOf p } } := by
  simp [validateFile, hex]

/-- Witness for C6 at the zero-byte `empty.csv`. -/
theorem C6_empty_file_witness :
    fsEmpty (("empty.csv").data) = some [] ∧
      validateFile fsEmpty (("empty.csv").data) =
        { isValid := false, fileType := none,
          errors := [("File is empty").data],
          warnings := [],
          fileInfo := { path := ("empty.csv").data, size := 0,
                        extension := extensionOf (("empty.csv").data) } } :=
  ⟨rfl, C6_empty_file fsEmpty (("empty.csv").data) rfl⟩

/-! ## Machinery for C9: a sample whose re-encoding starts with an Excel
magic byte cannot start with `<` after trimming. -/

theorem utf8EncodeChar_length_pos (c : Char) : 0 < (utf8EncodeChar c).length := by
  simp only [utf8EncodeChar]
  split_ifs <;> simp

/-- If the first UTF-8 byte of a character is `0x50`, the character is
`P` itself (`0x50` is an ASCII lead byte). -/
theorem utf8EncodeChar_head_fifty (c : Char)
    (h : (utf8EncodeChar c).getD 0 0 = 0x50) : c.toNat = 0x50 := by
  simp only [utf8EncodeChar] at h
  split_ifs at h <;> simp only [List.getD_cons_zero] at h <;> omega

/-- If the first UTF-8 byte of a character is `0xD0`, the character's
code point lies in `[0x400, 0x43F]` (the two-byte sequences with lead
byte `0xD0`). -/
theorem utf8EncodeChar_head_oleByte (c : Char)
    (h : (utf8EncodeChar c).getD 0 0 = 0xD0) :
    0x400 ≤ c.toNat ∧ c.toNat ≤ 0x43F := by
  simp only [utf8EncodeChar] at h
  split_ifs at h <;> simp only [List.getD_cons_zero] at h <;> omega

theorem dropWhile_append_singleton (p : Char → Bool) (c : Char)
    (hc : p c = false) (xs : List Char) :
    (xs ++ [c]).dropWhile p = xs.dropWhile p ++ [c] := by
  induction xs with
  | nil => simp [List.dropWhile, hc]
  | cons a as ih =>
    by_cases ha : p a
    · simp [List.dropWhile_cons, ha, ih]
    · simp [List.dropWhile_cons, ha]

theorem trimRight_cons (c : Char) (l : List Char)
    (hc : jsIsSpace c = false) : trimRight (c :: l) = c :: trimRight l := by
  unfold trimRight
  rw [List.reverse_cons, dropWhile_append_singleton _ _ hc, List.reverse_append]
  simp

theorem jsTrim_cons (c : Char) (l : List Char) (hc : jsIsSpace c = false) :
    jsTrim (c :: l) = c :: trimRight l := by
  unfold jsTrim
  rw [List.dropWhile_cons, if_neg (by simp [hc])]
  exact trimRight_cons c l hc

/-- A positive Excel content score forces the sample's first character to
be `P` (ZIP magic) or a code point in `[0x400, 0x43F]` (the only
characters whose UTF-8 encoding starts with `0xD0`). -/
theorem excelContentScore_head (content : List Char)
    (h : excelContentScore content ≠ 0) :
    ∃ c0 rest, content = c0 :: rest ∧
      (c0.toNat = 0x50 ∨ (0x400 ≤ c0.toNat ∧ c0.toNat ≤ 0x43F)) := by
  simp only [excelContentScore] at h
  split_ifs at h with h8 hzip hole
  · cases content with
    | nil => simp [utf8Encode] at h8
    | cons c0 rest =>
      refine ⟨c0, rest, rfl, Or.inl ?_⟩
      rw [show utf8Encode (c0 :: rest) = utf8EncodeChar c0 ++ utf8Encode rest from rfl,
        List.getD_append _ _ _ _ (utf8EncodeChar_length_pos c0)] at hzip
      exact utf8EncodeChar_head_fifty c0 hzip.1
  · cases content with
    | nil => simp [utf8Encode] at h8
    | cons c0 rest =>
      refine ⟨c0, rest, rfl, Or.inr ?_⟩
      rw [show utf8Encode (c0 :: rest) = utf8EncodeChar c0 ++ utf8Encode rest from rfl,
        List.getD_append _ _ _ _ (utf8EncodeChar_length_pos c0)] at hole
      exact utf8EncodeChar_head_oleByte c0 hole.1
  · exact absurd rfl h
  · exact absurd rfl h

theorem jsIsSpace_false_of_head (c : Char)
    (h : c.toNat = 0x50 ∨ (0x400 ≤ c.toNat ∧ c.toNat ≤ 0x43F)) :
    jsIsSpace c = false := by
  unfold jsIsSpace
  rw [decide_eq_false_iff_not]
  rcases h with h | ⟨h1, h2⟩ <;> omega

theorem xmlContentScore_eq_zero (c0 : Char) (rest : List Char)
    (hns : jsIsSpace c0 = false) (hne : ¬(('<' : Char) = c0)) :
    xmlContentScore (c0 :: rest) = 0 := by
  have htrim : jsTrim (c0 :: rest) = c0 :: trimRight rest := jsTrim_cons c0 rest hns
  simp only [xmlContentScore]
  rw [htrim, if_neg]
  rintro (h | h)
  · simp [listStartsWith, hne] at h
  · simp [listStartsWith, hne] at h

/-- C9: the content scorer never gives positive scores to both XML and
Excel in one triple — a positive Excel score requires the re-encoded
sample to begin with byte `0x50` or `0xD0`, which forces a non-`<`,
non-whitespace first character, so the trimmed sample cannot begin with
`<` and the XML score is 0. -/
theorem C9_xml_excel_exclusive (content : List Char) :
    (scoreByContent content).xml = 0 ∨ (scoreByContent content).excel = 0 := by
  by_cases hlen : content.length = 0
  · left
    simp [scoreByContent, hlen]
  · by_cases he : excelContentScore content = 0
    · right
      simp [scoreByContent, hlen]
      exact he
    · left
      obtain ⟨c0, rest, hc, hhead⟩ := excelContentScore_head content he
      have hns := jsIsSpace_false_of_head c0 hhead
      have hne : ¬(('<' : Char) = c0) := by
        intro heq
        rw [← heq] at hhead
        exact absurd hhead (by decide)
      subst hc
      simp [scoreByContent, hlen]
      exact xmlContentScore_eq_zero c0 rest hns hne

/-! ## Machinery for C3: the CSV threshold of the content scorer. -/

theorem scoreByContent_xml (c : List Char) (h : ¬c.length = 0) :
    (scoreByContent c).xml = xmlContentScore c := by
  simp [scoreByContent, h]

theorem scoreByContent_excel (c : List Char) (h : ¬c.length = 0) :
    (scoreByContent c).excel = excelContentScore c := by
  simp [scoreByContent, h]

theorem scoreByContent_csv (c : List Char) (h : ¬c.length = 0) :
    (scoreByContent c).csv =
      csvContentScore c (xmlContentScore c) (excelContentScore c) := by
  simp [scoreByContent, h]

/-- The rational comparison `csvIndicators >= lines.length * 0.5` of the
source is the integer comparison `lines.length <= 2 * csvIndicators`. -/
theorem ratHalf_le_iff (a b : Nat) :
    (ratMul (a : Rat) (mkRat 1 2) ≤ (b : Rat)) ↔ a ≤ 2 * b := by
  rw [ratMul_eq_mul,
    show (mkRat 1 2 : Rat) = 1/2 from by
      rw [Rat.mkRat_eq_divInt, Rat.divInt_eq_div]
      norm_num,
    mul_one_div, div_le_iff₀ (by norm_num : (0 : Rat) < 2), mul_comm]
  exact_mod_cast Iff.rfl

/-- C3 (amended): on a non-empty sample whose XML and Excel content
scores are both zero, the CSV content score is 1 exactly when the number
of non-blank separator-containing lines among the first 10 lines of the
sample reaches 50% of the number of those taken lines — blank lines count
toward the denominator — 0.5 when that threshold fails but at least one
such line exists, and 0 otherwise. -/
theorem C3_csv_threshold (c : List Char) (h0 : ¬c.length = 0)
    (hx : (scoreByContent c).xml = 0) (he : (scoreByContent c).excel = 0) :
    (scoreByContent c).csv =
      if ((splitOnChar '\n' c).take 10).length ≤
          2 * (((splitOnChar '\n' c).take 10).filter csvLineCounts).length then 1
      else if 0 < (((splitOnChar '\n' c).take 10).filter csvLineCounts).length
        then mkRat 1 2
      else 0 := by
  have hx' : xmlContentScore c = 0 := by
    rw [← scoreByContent_xml c h0]
    exact hx
  have he' : excelContentScore c = 0 := by
    rw [← scoreByContent_excel c h0]
    exact he
  rw [scoreByContent_csv c h0, hx', he']
  simp only [csvContentScore, ratHalf_le_iff, and_self, if_true]

/-- Witness for the amended C3 at the sample `a,b`: one line, one
separator-containing line, threshold met, CSV score 1. -/
theorem C3_csv_threshold_witness :
    ¬((("a,b").data : List Char).length = 0) ∧
      (scoreByContent (("a,b").data)).xml = 0 ∧
      (scoreByContent (("a,b").data)).excel = 0 ∧
      (scoreByContent (("a,b").data)).csv =
        (if ((splitOnChar '\n' (("a,b").data)).take 10).length ≤
            2 * (((splitOnChar '\n' (("a,b").data)).take 10).filter csvLineCounts).length
          then 1
        else if 0 < (((splitOnChar '\n' (("a,b").data)).take 10).filter csvLineCounts).length
          then mkRat 1 2
        else 0) :=
  ⟨by decide, by decide, by decide,
    C3_csv_threshold (("a,b").data) (by decide) (by decide) (by decide)⟩

/-- Counterexample to C3 as stated: in the sample `a,b\n\n\n`, every one
of the first 10 *non-blank* lines (there is exactly one, `a,b`) contains
a separator, so the claim's reading of the 50% rule demands CSV score 1;
the code divides by the count of all taken lines (4, including the three
blank ones), the threshold fails, and the score is 0.5. -/
theorem C3_counterexample :
    blankHeavyContent.length ≠ 0 ∧
      (scoreByContent blankHeavyContent).xml = 0 ∧
      (scoreByContent blankHeavyContent).excel = 0 ∧
      ((splitOnChar '\n' blankHeavyContent).filter
          (fun l => !(jsTrim l).isEmpty)).take 10 = [("a,b").data] ∧
      csvLineHasSeparator (("a,b").data) = true ∧
      (scoreByContent blankHeavyContent).csv = mkRat 1 2 ∧
      (scoreByContent blankHeavyContent).csv ≠ 1 := by
  decide

/-- Counterexample to C2 as stated: for `report.csv` with content
`name,age\nJohn,30\nJane,25`, the filename score is not 0 — the basename
contains the substring `csv` — so the confidence is not `min(2/3, 1)`
and a filename-based reason is present. -/
theorem C2_counterexample :
    (detectFileType fsReport reportPath).detectedType = some FileType.CSV ∧
      ¬((detectFileType fsReport reportPath).confidence = jsMin (mkRat 2 3) 1) ∧
      filenameMsg FileType.CSV ∈ (detectFileType fsReport reportPath).reasons := by
  decide

/-- C2 (amended): for `report.csv` with content
`name,age\nJohn,30\nJane,25`, detection returns CSV with extension score
1, content score 1 and filename score 0.3 (the basename contains `csv`),
so the combined CSV score is 2.3 and the confidence is
`min(2.3 / 3, 1) = 23/30 ≈ 0.767`, with reasons `CSV indicators found`,
`File extension matches CSV`, `File content matches CSV format`, and
`Filename suggests CSV format`, in that order. -/
theorem C2_scenario_report_csv :
    (scoreByExtension (extensionOf reportPath)).csv = 1 ∧
      (scoreByContent (contentSampleOf fsReport reportPath)).csv = 1 ∧
      (scoreByFilename (fileNameOf reportPath)).csv = mkRat 3 10 ∧
      detectFileType fsReport reportPath =
        { detectedType := some FileType.CSV,
          confidence := mkRat 23 30,
          reasons := [("CSV indicators found").data,
            ("File extension matches CSV").data,
            ("File content matches CSV format").data,
            ("Filename suggests CSV format").data] } := by
  decide

/-- The OLE arm of the Excel magic-number check can never fire on any
sample: a UTF-8 encoder never emits `0xD0` followed by `0xCF`, because
the byte after a `0xD0` lead is a continuation byte in `0x80..0xBF`. -/
theorem oleCheck_never_fires (content : List Char) :
    ¬((utf8Encode content).getD 0 0 = 0xD0 ∧
      (utf8Encode content).getD 1 0 = 0xCF) := by
  rintro ⟨h0, h1⟩
  cases content with
  | nil => simp [utf8Encode] at h0
  | cons c0 rest =>
    rw [show utf8Encode (c0 :: rest) = utf8EncodeChar c0 ++ utf8Encode rest from rfl,
      List.getD_append _ _ _ _ (utf8EncodeChar_length_pos c0)] at h0
    obtain ⟨hlo, hhi⟩ := utf8EncodeChar_head_oleByte c0 h0
    have henc : utf8EncodeChar c0 = [0xC0 + c0.toNat / 64, 0x80 + c0.toNat % 64] := by
      simp only [utf8EncodeChar]
      rw [if_neg (by omega), if_pos (by omega)]
    rw [show utf8Encode (c0 :: rest) = utf8EncodeChar c0 ++ utf8Encode rest from rfl,
      List.getD_append _ _ _ _ (by rw [henc]; simp), henc] at h1
    simp only [List.getD_cons_succ, List.getD_cons_zero] at h1
    omega

/-- C4: the OLE branch of the Excel content check is dead code — the
content scorer receives the sample only after UTF-8 decoding, which
replaces the invalid lead bytes `D0 CF` with U+FFFD, so a legacy `.xls`
file beginning with the 8-byte OLE magic gets Excel content score 0,
while a ZIP-magic (`50 4B`) file of the same length gets score 1 as the
claim expects. -/
theorem C4_ole_branch_dead :
    oleSample.length = 8 ∧
      oleSample.take 4 = [0xD0, 0xCF, 0x11, 0xE0] ∧
      (scoreByContent (utf8Decode oleSample)).excel = 0 ∧
      zipSample.length = 8 ∧
      zipSample.take 2 = [0x50, 0x4B] ∧
      (scoreByContent (utf8Decode zipSample)).excel = 1 := by
  decide

end FileValidator
